import Mathlib

/-!
# Verification of the CryptoCurrency-Dashboard client (`src/app/page.tsx`)

Shallow embedding of the dashboard data model and state transitions.
The React state of the component is modelled as an explicit record (`DashState`);
each fetch handler and user event becomes a pure transition on that record.
Machine numbers (prices, percentages) are modelled as `Rat`; JavaScript
strings as Lean `String` (case folding via `String.toLower`, matching the
ASCII behaviour of `toLowerCase` on the identifiers involved).
-/

namespace CryptoDash

/-- Decidable substring containment on character lists: does `hay` contain
`needle` as a contiguous sublist?  Models JavaScript `String.prototype.includes`. -/
def listContains (needle : List Char) : List Char → Bool
  | [] => needle.isEmpty
  | a :: as => needle.isPrefixOf (a :: as) || listContains needle as

/-- Models the JavaScript expression `s.includes(pat)`. -/
def strContains (s pat : String) : Bool :=
  listContains pat.data s.data

/-- One asset record, as returned by the market listing endpoint
(interface `Cryptocurrency`, page.tsx lines 32-41). -/
structure Cryptocurrency where
  id : String
  symbol : String
  name : String
  current_price : Rat
  price_change_percentage_24h : Rat
  market_cap : Rat
  total_volume : Rat
  image : String
deriving DecidableEq, Repr

/-- One line dataset of the chart (the object built in `fetchChartData`,
page.tsx lines 180-192; only the data-model fields are relevant). -/
structure LineDataset where
  label : String
  data : List Rat
deriving DecidableEq, Repr

/-- The `ChartData<"line">` value held in the `chartData` state
(page.tsx lines 89-92). -/
structure LineChartData where
  labels : List String
  datasets : List LineDataset
deriving DecidableEq, Repr

/-- The supported fiat currencies (page.tsx line 48). -/
def CURRENCIES : List String := ["USD", "EUR", "GBP", "JPY"]

/-- The React state of the component (the `useState` hooks, page.tsx lines 82-95). -/
structure DashState where
  darkMode : Bool
  searchQuery : String
  cryptocurrencies : List Cryptocurrency
  filteredCryptos : List Cryptocurrency
  selectedCrypto : String
  chartData : LineChartData
  selectedCurrency : String
  loading : Bool
  message : String
deriving DecidableEq, Repr

/-- Initial state: the `useState` initial values (page.tsx lines 82-95). -/
def initialState : DashState :=
  { darkMode := false
    searchQuery := ""
    cryptocurrencies := []
    filteredCryptos := []
    selectedCrypto := "bitcoin"
    chartData := { labels := [], datasets := [] }
    selectedCurrency := "USD"
    loading := true
    message := "" }

/-- The filter predicate of the filter `useEffect` (page.tsx lines 136-140):
`crypto.name.toLowerCase().includes(q.toLowerCase()) ||
 crypto.symbol.toLowerCase().includes(q.toLowerCase())`. -/
def matchesQuery (searchQuery : String) (crypto : Cryptocurrency) : Bool :=
  strContains crypto.name.toLower searchQuery.toLower ||
  strContains crypto.symbol.toLower searchQuery.toLower

/-- The filtering computed by the filter `useEffect` (page.tsx lines 135-142). -/
def filterCryptos (cryptocurrencies : List Cryptocurrency) (searchQuery : String) :
    List Cryptocurrency :=
  cryptocurrencies.filter (matchesQuery searchQuery)

/-- Spec-side reading of "name or symbol contains Q as a case-insensitive
substring", stated as a proposition on folded character lists. -/
def specMatches (q : String) (c : Cryptocurrency) : Prop :=
  q.toLower.data <:+: c.name.toLower.data ∨ q.toLower.data <:+: c.symbol.toLower.data

/-- The success message set by `fetchCryptoData` (page.tsx line 154). -/
def successMessage : String := "Data fetched successfully!"

/-- The error message set by `fetchCryptoData` on failure (page.tsx lines 157-159). -/
def fetchFailMessage : String := "Failed to fetch cryptocurrency data. Please try again later."

/-- The error message set by `fetchChartData` on failure (page.tsx line 196). -/
def chartFailMessage : String := "Failed to load chart data."

/-- The listing fetch handler `fetchCryptoData` (page.tsx lines 145-162) as a
state transition.  The network outcome is the explicit `result` argument:
`.ok data` is a resolved response, `.error ()` a rejected request.  The handler
first sets `loading` and clears `message`, then applies the try/catch branches. -/
def fetchCryptoData (s : DashState) (result : Except Unit (List Cryptocurrency)) :
    DashState :=
  let s0 := { s with loading := true, message := "" }
  match result with
  | .ok data =>
      { s0 with cryptocurrencies := data, loading := false, message := successMessage }
  | .error _ =>
      { s0 with message := fetchFailMessage, loading := false }

/-- Civil (proleptic Gregorian) date of a day number counted from 1970-01-01,
days-from-civil inverted by the standard era/year-of-era computation.
Returns `(year, month, day)`. -/
def civilFromDays (z : Int) : Int × Nat × Nat :=
  let zs := z + 719468
  let era := zs.fdiv 146097
  let doe := (zs - era * 146097).toNat
  let yoe := (doe - doe / 1460 + doe / 36524 - doe / 146096) / 365
  let doy := doe - (365 * yoe + yoe / 4 - yoe / 100)
  let mp := (5 * doy + 2) / 153
  let d := doy - (153 * mp + 2) / 5 + 1
  let m := if mp < 10 then mp + 3 else mp - 9
  (era * 400 + yoe + (if m ≤ 2 then 1 else 0), m, d)

/-- Decimal digits of `n`, most significant first (fuel-indexed so that the
recursion is structural); empty for `n = 0`. -/
def natDigitsAux : Nat → Nat → List Char
  | 0, _ => []
  | fuel + 1, n => if n = 0 then [] else natDigitsAux fuel (n / 10) ++ [Nat.digitChar (n % 10)]

/-- Decimal string of a natural number (models JavaScript integer `ToString`). -/
def natRepr (n : Nat) : String :=
  if n = 0 then "0" else String.mk (natDigitsAux (n + 1) n)

/-- Decimal string of an integer. -/
def intRepr (i : Int) : String :=
  (if i < 0 then "-" else "") ++ natRepr i.natAbs

/-- Models `new Date(timestamp).toLocaleDateString()` (page.tsx line 174):
the en-US `M/D/YYYY` rendering of the UTC calendar date of the millisecond
timestamp (the actual browser output additionally depends on the locale and
time zone of the runtime, which are outside the program). -/
def toLocaleDateString (timestamp : Int) : String :=
  let ymd := civilFromDays (timestamp.fdiv 86400000)
  natRepr ymd.2.1 ++ "/" ++ natRepr ymd.2.2 ++ "/" ++ intRepr ymd.1

/-- The history fetch handler `fetchChartData` (page.tsx lines 165-198) as a
state transition.  A resolved response is its ordered list of
`(timestamp, price)` pairs (the `prices` field); a rejected request is
`.error ()`.  The handler first clears `message`, then either rebuilds
`chartData` from the response or sets the error message. -/
def fetchChartData (s : DashState) (result : Except Unit (List (Int × Rat))) :
    DashState :=
  let s0 := { s with message := "" }
  match result with
  | .ok prices =>
      { s0 with chartData :=
          { labels := prices.map (fun p => toLocaleDateString p.1)
            datasets := [{ label := "Price", data := prices.map (fun p => p.2) }] } }
  | .error _ =>
      { s0 with message := chartFailMessage }

/-- The message banner of the rendered page (page.tsx lines 255-263): shown
iff `message` is nonempty, with the red error background iff the text contains
`"Failed"`, otherwise the green success background. -/
def messageBanner (s : DashState) : Option (String × String) :=
  if s.message = "" then none
  else some (s.message, if strContains s.message "Failed" then "bg-red-500" else "bg-green-500")

/-- Currency symbol used by `Intl.NumberFormat("en-US", {style: "currency"})`
for each supported currency code. -/
def currencySymbol : String → String
  | "USD" => "$"
  | "EUR" => "€"
  | "GBP" => "£"
  | "JPY" => "¥"
  | c => c

/-- Grouping pass over a least-significant-first digit list: keeps runs of
three digits separated by commas (fuel-indexed structural recursion). -/
def groupAux : Nat → List Char → List Char
  | 0, ds => ds
  | fuel + 1, ds =>
      if ds.length ≤ 3 then ds else ds.take 3 ++ ',' :: groupAux fuel (ds.drop 3)

/-- en-US thousands grouping of a most-significant-first digit list. -/
def groupDigits (ds : List Char) : List Char :=
  (groupAux ds.length ds.reverse).reverse

/-- Rounding to an integer with ties away from zero, the default
(`halfExpand`) rounding of `Intl.NumberFormat`. -/
def roundHalfExpand (x : Rat) : Int :=
  if x < 0 then -(Rat.floor (-x + 1 / 2)) else Rat.floor (x + 1 / 2)

/-- The `formatNumber` helper (page.tsx lines 201-208):
`Intl.NumberFormat("en-US", {style: "currency", currency, minimumFractionDigits: 2,
maximumFractionDigits: 2}).format(num)`, modelled for the supported codes as
sign, currency symbol, comma-grouped integer part, and exactly two fraction
digits. -/
def formatNumber (num : Rat) (selectedCurrency : String) : String :=
  let cents := roundHalfExpand (num * 100)
  let a := cents.natAbs
  (if cents < 0 then "-" else "") ++ currencySymbol selectedCurrency ++
    String.mk (groupDigits (natRepr (a / 100)).data) ++ "." ++
    String.mk [Nat.digitChar (a % 100 / 10), Nat.digitChar (a % 10)]

/-- Models `x.toFixed(2)` (page.tsx line 334): the integer `n` with `n/100` closest
to `x`, ties toward the larger `n`, rendered with exactly two fraction digits. -/
def toFixed2 (x : Rat) : String :=
  let n := Rat.floor (x * 100 + 1 / 2)
  let a := n.natAbs
  (if n < 0 then "-" else "") ++ natRepr (a / 100) ++ "." ++
    String.mk [Nat.digitChar (a % 100 / 10), Nat.digitChar (a % 10)]

/-- CSS class of the 24h-change paragraph (page.tsx lines 327-333):
`price_change_percentage_24h >= 0 ? "text-green-500" : "text-red-500"`. -/
def priceChangeClass (change : Rat) : String :=
  if change ≥ 0 then "text-green-500" else "text-red-500"

/-- Text of the 24h-change paragraph (page.tsx line 334):
`price_change_percentage_24h.toFixed(2) + "%"`. -/
def priceChangeText (change : Rat) : String :=
  toFixed2 change ++ "%"

/-- The texts and sign-derived class of one rendered asset card
(page.tsx lines 300-343). -/
structure CardView where
  priceText : String
  changeText : String
  changeClass : String
  marketCapText : String
  volumeText : String
deriving DecidableEq, Repr

/-- Rendering of one asset card (page.tsx lines 300-343): price, market cap
and volume all go through `formatNumber`; the 24h change through
`toFixed(2)` and the sign-derived class. -/
def renderCard (selectedCurrency : String) (c : Cryptocurrency) : CardView :=
  { priceText := formatNumber c.current_price selectedCurrency
    changeText := priceChangeText c.price_change_percentage_24h
    changeClass := priceChangeClass c.price_change_percentage_24h
    marketCapText := formatNumber c.market_cap selectedCurrency
    volumeText := formatNumber c.total_volume selectedCurrency }

/-- User intents emitted by the rendered controls (page.tsx lines 230, 239,
273, 303). -/
inductive UserEvent where
  | toggleTheme
  | setSearch (q : String)
  | selectCrypto (id : String)
  | setCurrency (c : String)
deriving DecidableEq, Repr

/-- The `setState` call of the handler of each control. -/
def applyUserEvent (s : DashState) : UserEvent → DashState
  | .toggleTheme => { s with darkMode := !s.darkMode }
  | .setSearch q => { s with searchQuery := q }
  | .selectCrypto i => { s with selectedCrypto := i }
  | .setCurrency c => { s with selectedCurrency := c }

/-- An outgoing HTTP request to the market-data API (page.tsx lines 149-151
and 168-170; the `vs_currency` query parameter is lower-cased there). -/
inductive Request where
  | listing (vsCurrency : String)
  | history (id : String) (vsCurrency : String)
deriving DecidableEq, Repr

/-- The requests issued by the effects that run after a render.  Both data
effects (page.tsx lines 120-125 and 128-132) omit their dependency array —
the second `useEffect` argument is missing, `}, );` — so each runs after
EVERY render: the first issues a listing request (and re-arms the 60 s
interval), the second issues a history request whenever `selectedCrypto` is
nonempty. -/
def effectsRequests (s : DashState) : List Request :=
  [Request.listing s.selectedCurrency.toLower] ++
    (if s.selectedCrypto ≠ "" then
      [Request.history s.selectedCrypto s.selectedCurrency.toLower]
    else [])

/-- The filter `useEffect` (page.tsx lines 135-142): recomputes
`filteredCryptos` from `cryptocurrencies` and `searchQuery`. -/
def runFilterEffect (s : DashState) : DashState :=
  { s with filteredCryptos := filterCryptos s.cryptocurrencies s.searchQuery }

/-- One user event followed by the re-render it causes: the state after the
event (with the filter effect applied) and the requests issued by the data
effects of that first re-render.  (Because the dependency arrays are omitted,
later renders in the ensuing cascade issue further requests; one render is
enough for the properties below.) -/
def stepUser (s : DashState) (e : UserEvent) : DashState × List Request :=
  let s1 := runFilterEffect (applyUserEvent s e)
  (s1, effectsRequests s1)

/-- One 60 s timer tick: the interval calls `fetchCryptoData`; the resulting
state updates cause a re-render whose data effects issue the listed requests. -/
def stepTimer (s : DashState) (result : Except Unit (List Cryptocurrency)) :
    DashState × List Request :=
  let s1 := runFilterEffect (fetchCryptoData s result)
  (s1, effectsRequests s1)

/-- The history response of the 7-day scenario in the spec: seven daily
`(timestamp, price)` pairs for `bitcoin` in USD. -/
def exPrices7 : List (Int × Rat) :=
  [(1700000000000, 35000), (1700086400000, 35500), (1700172800000, 36000),
   (1700259200000, 35800), (1700345600000, 36200), (1700432000000, 36100),
   (1700518400000, 36500)]

/-- A reachable state whose chart series was produced by a completed history
fetch for the initially selected asset (`bitcoin`) in USD. -/
def chartLoadedState : DashState :=
  fetchChartData initialState (Except.ok exPrices7)

/- ## Theorems -/

theorem listContains_spec (needle hay : List Char) :
    listContains needle hay = true ↔ needle <:+: hay := by
  induction hay with
  | nil =>
    simp [listContains, List.isEmpty_iff]
  | cons a as ih =>
    simp [listContains, List.infix_cons_iff, ih, List.isPrefixOf_iff_prefix]

theorem strContains_spec (s pat : String) :
    strContains s pat = true ↔ pat.data <:+: s.data :=
  listContains_spec pat.data s.data

theorem matchesQuery_iff_specMatches (q : String) (c : Cryptocurrency) :
    matchesQuery q c = true ↔ specMatches q c := by
  simp [matchesQuery, specMatches, strContains_spec]

theorem toLower_data (s : String) : s.toLower.data = s.data.map Char.toLower := by
  rw [String.toLower, String.map_eq]

/-- C1: For every asset set `S` and query string `Q`, the filtered list is
(i) a sublist of `S` (hence a subset, in the same relative order), (ii) has
exactly the members of `S` whose display name or symbol contains `Q` as a
case-insensitive substring, and (iii) the filtering is idempotent. -/
theorem filter_exact_ordered_subset (S : List Cryptocurrency) (Q : String) :
    (filterCryptos S Q).Sublist S ∧
    (∀ c, c ∈ filterCryptos S Q ↔ c ∈ S ∧ specMatches Q c) ∧
    filterCryptos (filterCryptos S Q) Q = filterCryptos S Q := by
  refine ⟨List.filter_sublist S, fun c => ?_, ?_⟩
  · rw [filterCryptos, List.mem_filter, matchesQuery_iff_specMatches]
  · simp [filterCryptos, List.filter_filter]

theorem listContains_nil (hay : List Char) : listContains [] hay = true :=
  (listContains_spec [] hay).mpr List.nil_infix

/-- C10: Filtering any asset set with the empty query string is the
identity: every asset matches, so the whole most recent fetch is displayed. -/
theorem filter_empty_query_id (S : List Cryptocurrency) :
    filterCryptos S "" = S := by
  rw [filterCryptos, List.filter_eq_self]
  intro c _
  rw [matchesQuery]
  simp [strContains, toLower_data, listContains_nil]

/-- C2: A failed listing fetch leaves the asset set unchanged (no partial
merge) and the rendered message banner shows the error text on the red error
background. -/
theorem listing_failure_preserves_assets (s : DashState) :
    (fetchCryptoData s (Except.error ())).cryptocurrencies = s.cryptocurrencies ∧
    messageBanner (fetchCryptoData s (Except.error ())) =
      some (fetchFailMessage, "bg-red-500") := by
  constructor
  · rfl
  · rw [messageBanner]
    norm_num [fetchCryptoData, fetchFailMessage]
    decide

/-- C3: A successful listing fetch (whatever triggered it) replaces the
entire asset set with the response records — membership in the new set is
membership in the response — and the banner shows the success text on the
green background, clearing any prior error message. -/
theorem listing_success_replaces_assets (s : DashState) (data : List Cryptocurrency) :
    (fetchCryptoData s (Except.ok data)).cryptocurrencies = data ∧
    (∀ c, c ∈ (fetchCryptoData s (Except.ok data)).cryptocurrencies ↔ c ∈ data) ∧
    messageBanner (fetchCryptoData s (Except.ok data)) =
      some (successMessage, "bg-green-500") := by
  refine ⟨rfl, fun c => Iff.rfl, ?_⟩
  rw [messageBanner]
  norm_num [fetchCryptoData, successMessage]
  decide

/-- C4: A failed history fetch leaves the chart series unchanged (empty if
none existed) and the banner shows the chart error text on the red error
background. -/
theorem history_failure_preserves_chart (s : DashState) :
    (fetchChartData s (Except.error ())).chartData = s.chartData ∧
    messageBanner (fetchChartData s (Except.error ())) =
      some (chartFailMessage, "bg-red-500") := by
  constructor
  · rfl
  · rw [messageBanner]
    norm_num [fetchChartData, chartFailMessage]
    decide

theorem digitChar_isDigit : ∀ m, m < 10 → (Nat.digitChar m).isDigit = true := by decide

theorem mem_natDigitsAux_isDigit :
    ∀ fuel n ch, ch ∈ natDigitsAux fuel n → ch.isDigit = true := by
  intro fuel
  induction fuel with
  | zero => intro n ch h; simp [natDigitsAux] at h
  | succ f ih =>
    intro n ch h
    rw [natDigitsAux] at h
    split at h
    · simp at h
    · rcases List.mem_append.mp h with h | h
      · exact ih _ _ h
      · rw [List.mem_singleton] at h
        subst h
        exact digitChar_isDigit _ (Nat.mod_lt _ (by norm_num))

theorem mem_natRepr_isDigit (n : Nat) : ∀ ch ∈ (natRepr n).data, ch.isDigit = true := by
  intro ch h
  rw [natRepr] at h
  split at h
  · have h0 : ("0" : String).data = ['0'] := rfl
    rw [h0, List.mem_singleton] at h
    subst h
    decide
  · exact mem_natDigitsAux_isDigit _ _ _ h

theorem mem_groupAux :
    ∀ fuel ds ch, ch ∈ groupAux fuel ds → ch ∈ ds ∨ ch = ',' := by
  intro fuel
  induction fuel with
  | zero => intro ds ch h; exact Or.inl h
  | succ f ih =>
    intro ds ch h
    rw [groupAux] at h
    split at h
    · exact Or.inl h
    · rcases List.mem_append.mp h with h | h
      · exact Or.inl (List.take_subset _ _ h)
      · rcases List.mem_cons.mp h with h | h
        · exact Or.inr h
        · rcases ih _ _ h with h1 | h1
          · exact Or.inl (List.drop_subset _ _ h1)
          · exact Or.inr h1

theorem mem_groupDigits (ds : List Char) (ch : Char) (h : ch ∈ groupDigits ds) :
    ch ∈ ds ∨ ch = ',' := by
  rw [groupDigits, List.mem_reverse] at h
  rcases mem_groupAux _ _ _ h with h1 | h1
  · exact Or.inl (List.mem_reverse.mp h1)
  · exact Or.inr h1

theorem toFixed2_structure (x : Rat) :
    ∃ pre d1 d2, toFixed2 x = pre ++ "." ++ String.mk [d1, d2] ∧
      d1.isDigit = true ∧ d2.isDigit = true ∧ '.' ∉ pre.data := by
  refine ⟨(if Rat.floor (x * 100 + 1 / 2) < 0 then "-" else "") ++
      natRepr ((Rat.floor (x * 100 + 1 / 2)).natAbs / 100),
    Nat.digitChar ((Rat.floor (x * 100 + 1 / 2)).natAbs % 100 / 10),
    Nat.digitChar ((Rat.floor (x * 100 + 1 / 2)).natAbs % 10), rfl,
    digitChar_isDigit _ (by omega), digitChar_isDigit _ (by omega), ?_⟩
  intro hmem
  rw [String.data_append] at hmem
  rcases List.mem_append.mp hmem with h | h
  · split at h
    · simp [show ("-" : String).data = ['-'] from rfl] at h
    · simp [show ("" : String).data = [] from rfl] at h
  · exact absurd (mem_natRepr_isDigit _ _ h) (by decide)

/-- C7 counterexample: at a 24h change of exactly zero the rendered class is
the green (positive) one — the same visual state as a strictly positive
change, not the other one as claimed. -/
theorem zero_change_gets_positive_class :
    priceChangeClass 0 = "text-green-500" ∧
    priceChangeClass 1 = "text-green-500" ∧
    priceChangeClass (-1) = "text-red-500" := by
  refine ⟨?_, ?_, ?_⟩ <;> rw [priceChangeClass]
  · rw [if_pos (by norm_num)]
  · rw [if_pos (by norm_num)]
  · rw [if_neg (by norm_num)]

/-- C7 (amended): the 24h change is displayed with exactly two fractional
digits followed by a percent sign, and the visual state is derived from the
sign with zero grouped with the positive side: a nonnegative change gets the
green class and a strictly negative change gets the red class. -/
theorem change_two_digits_sign_class (change : Rat) :
    (0 ≤ change → priceChangeClass change = "text-green-500") ∧
    (change < 0 → priceChangeClass change = "text-red-500") ∧
    (∃ pre d1 d2, priceChangeText change = pre ++ "." ++ String.mk [d1, d2] ++ "%" ∧
      d1.isDigit = true ∧ d2.isDigit = true ∧ '.' ∉ pre.data) := by
  refine ⟨fun h => ?_, fun h => ?_, ?_⟩
  · rw [priceChangeClass, if_pos h]
  · rw [priceChangeClass, if_neg (not_le.mpr h)]
  · obtain ⟨pre, d1, d2, heq, h1, h2, h3⟩ := toFixed2_structure change
    exact ⟨pre, d1, d2, by rw [priceChangeText, heq], h1, h2, h3⟩

theorem change_two_digits_sign_class_witness :
    priceChangeClass 1 = "text-green-500" ∧ priceChangeClass (-1) = "text-red-500" :=
  ⟨(change_two_digits_sign_class 1).1 (by norm_num),
   (change_two_digits_sign_class (-1)).2.1 (by norm_num)⟩

theorem roundHalfExpand_3000_mul_100 : roundHalfExpand ((3000 : Rat) * 100) = 300000 := by
  rw [roundHalfExpand, if_neg (by norm_num), Rat.floor_def']
  norm_num

theorem formatNumber_usd_3000 : formatNumber 3000 "USD" = "$3,000.00" := by
  simp only [formatNumber, roundHalfExpand_3000_mul_100]
  rfl

theorem formatNumber_structure (num : Rat) (cur : String) (h : cur ∈ CURRENCIES) :
    ∃ pre d1 d2, formatNumber num cur = pre ++ "." ++ String.mk [d1, d2] ∧
      d1.isDigit = true ∧ d2.isDigit = true ∧ '.' ∉ pre.data := by
  refine ⟨(if roundHalfExpand (num * 100) < 0 then "-" else "") ++ currencySymbol cur ++
      String.mk (groupDigits (natRepr ((roundHalfExpand (num * 100)).natAbs / 100)).data),
    Nat.digitChar ((roundHalfExpand (num * 100)).natAbs % 100 / 10),
    Nat.digitChar ((roundHalfExpand (num * 100)).natAbs % 10), rfl,
    digitChar_isDigit _ (by omega), digitChar_isDigit _ (by omega), ?_⟩
  intro hmem
  rw [String.data_append, String.data_append] at hmem
  rcases List.mem_append.mp hmem with hm | hm
  · rcases List.mem_append.mp hm with hm | hm
    · split at hm
      · simp [show ("-" : String).data = ['-'] from rfl] at hm
      · simp [show ("" : String).data = [] from rfl] at hm
    · rw [CURRENCIES] at h
      simp only [List.mem_cons, List.not_mem_nil, or_false] at h
      rcases h with rfl | rfl | rfl | rfl
      · exact absurd hm (by decide)
      · exact absurd hm (by decide)
      · exact absurd hm (by decide)
      · exact absurd hm (by decide)
  · rcases mem_groupDigits _ _ hm with hm1 | hm1
    · exact absurd (mem_natRepr_isDigit _ _ hm1) (by decide)
    · exact absurd hm1 (by decide)

/-- C8: for every numeric value and every supported fiat code the formatting
function yields a currency string whose fractional part is exactly two digits
(the single dot is followed by two digit characters and by nothing else);
price, market cap and volume of a rendered card all go through this one
function; and the value 3000 in USD formats as the localized "$3,000.00". -/
theorem formatNumber_two_digits_uniform (num : Rat) (cur : String)
    (h : cur ∈ CURRENCIES) (c : Cryptocurrency) :
    (∃ pre d1 d2, formatNumber num cur = pre ++ "." ++ String.mk [d1, d2] ∧
      d1.isDigit = true ∧ d2.isDigit = true ∧ '.' ∉ pre.data) ∧
    ((renderCard cur c).priceText = formatNumber c.current_price cur ∧
     (renderCard cur c).marketCapText = formatNumber c.market_cap cur ∧
     (renderCard cur c).volumeText = formatNumber c.total_volume cur) ∧
    formatNumber 3000 "USD" = "$3,000.00" :=
  ⟨formatNumber_structure num cur h, ⟨rfl, rfl, rfl⟩, formatNumber_usd_3000⟩

theorem formatNumber_two_digits_uniform_witness :
    formatNumber 3000 "USD" = "$3,000.00" :=
  (formatNumber_two_digits_uniform 3000 "USD" (by decide)
    ⟨"bitcoin", "btc", "Bitcoin", 50000, 1, 900000, 30000, "img"⟩).2.2

theorem chartData_ok (s : DashState) (prices : List (Int × Rat)) :
    (fetchChartData s (Except.ok prices)).chartData =
      { labels := prices.map (fun p => toLocaleDateString p.1)
        datasets := [{ label := "Price", data := prices.map (fun p => p.2) }] } := rfl

/-- C9: a successful history response of n (timestamp, price) pairs yields a
chart with a single dataset, whose labels and data both have length n; the
i-th label is the calendar-date rendering of the i-th timestamp of the
response and the i-th data value is the i-th price, in response order. -/
theorem history_response_chart_pointwise (s : DashState) (prices : List (Int × Rat)) :
    (fetchChartData s (Except.ok prices)).chartData.datasets.length = 1 ∧
    (fetchChartData s (Except.ok prices)).chartData.labels.length = prices.length ∧
    ((fetchChartData s (Except.ok prices)).chartData.datasets.headD
        { label := "", data := [] }).data.length = prices.length ∧
    ∀ i, i < prices.length →
      (fetchChartData s (Except.ok prices)).chartData.labels.getD i "" =
        toLocaleDateString (prices.getD i (0, 0)).1 ∧
      ((fetchChartData s (Except.ok prices)).chartData.datasets.headD
        { label := "", data := [] }).data.getD i 0 = (prices.getD i (0, 0)).2 := by
  rw [chartData_ok]
  refine ⟨rfl, by simp, by simp, fun i hi => ⟨?_, ?_⟩⟩
  · simp [List.getD_eq_getElem?_getD, List.getElem?_eq_getElem hi]
  · simp [List.getD_eq_getElem?_getD, List.getElem?_eq_getElem hi]

theorem history_response_chart_pointwise_witness :
    (fetchChartData initialState (Except.ok exPrices7)).chartData.labels.getD 0 "" =
      "11/14/2023" ∧
    ((fetchChartData initialState (Except.ok exPrices7)).chartData.datasets.headD
      { label := "", data := [] }).data.getD 0 0 = 35000 := by
  have h := (history_response_chart_pointwise initialState exPrices7).2.2.2 0 (by decide)
  refine ⟨?_, ?_⟩
  · rw [h.1]; rfl
  · rw [h.2]; rfl

/-- C5 counterexample: from a reachable state displaying the series fetched
for the initially selected asset in USD, selecting the asset `ethereum`
leaves the previously displayed series in place (and still nonempty, hence
still rendered) although the selected asset is already the new one — the
series is not invalidated by the change. -/
theorem chart_stale_after_selection :
    ((stepUser chartLoadedState (UserEvent.selectCrypto "ethereum")).1.selectedCrypto =
      "ethereum") ∧
    ((stepUser chartLoadedState (UserEvent.selectCrypto "ethereum")).1.chartData =
      chartLoadedState.chartData) ∧
    chartLoadedState.chartData.labels ≠ [] := by
  refine ⟨rfl, rfl, ?_⟩
  rw [chartLoadedState, chartData_ok]
  simp [exPrices7]

/-- C5 (amended): the chart series is replaced only by a completed history
fetch. User events (selecting an asset, changing the currency, searching,
toggling the theme) and timer-driven listing fetches leave the previously
displayed series unchanged until the next history fetch completes; a failed
history fetch also leaves it unchanged, and a successful one replaces it
entirely, independently of the previous state. -/
theorem chart_replaced_only_by_history_fetch (s : DashState) (e : UserEvent)
    (r : Except Unit (List Cryptocurrency)) (prices : List (Int × Rat)) :
    (stepUser s e).1.chartData = s.chartData ∧
    (stepTimer s r).1.chartData = s.chartData ∧
    (fetchChartData s (Except.error ())).chartData = s.chartData ∧
    (fetchChartData s (Except.ok prices)).chartData =
      (fetchChartData initialState (Except.ok prices)).chartData := by
  refine ⟨?_, ?_, rfl, rfl⟩
  · cases e <;> rfl
  · cases r <;> rfl

theorem toLower_usd : ("USD" : String).toLower = "usd" := by
  apply String.ext
  rw [toLower_data]
  decide

/-- C6 evaluation at the failing input: typing one character into the search
box — an event that does not change the selected asset — already makes the
following render issue a history fetch for the selected asset, and so does a
timer-driven listing refresh, because the chart `useEffect` omits its
dependency array and therefore runs after every render. -/
theorem search_and_timer_trigger_history_fetch :
    (stepUser initialState (UserEvent.setSearch "b")).2 =
      [Request.listing "usd", Request.history "bitcoin" "usd"] ∧
    (stepTimer initialState (Except.error ())).2 =
      [Request.listing "usd", Request.history "bitcoin" "usd"] := by
  constructor
  · simp only [stepUser, effectsRequests, runFilterEffect, applyUserEvent, initialState,
      toLower_usd]
    decide
  · simp only [stepTimer, effectsRequests, runFilterEffect, fetchCryptoData, initialState,
      toLower_usd]
    decide

end CryptoDash
